import Mathlib

/-!
# Verification of the PDF QA chatbot request pipeline

A shallow embedding of `src/server.js`: the `/upload` and `/ask` request
handlers, the `transformQuery` query rewriter and the `generateAnswer`
answer generator. External collaborators (the rewriting and generation
language model, the embedding service and the vector store) are modelled
as oracle functions returning `Except`, since every such call in the
source is an `await` that may reject. Each collaborator invocation is
additionally recorded in an event trace, so that statements of the form
"the collaborator is never invoked" are expressible. Similarity scores
are modelled as rationals; the JavaScript session `Map` is modelled as an
association list with `get`/`set`.
-/

namespace PdfQa

/-- One message of a conversation history, `{ role, parts: [{ text }] }`
in the source (server.js lines 190-191). -/
structure Turn where
  role : String
  text : String
deriving DecidableEq, Repr

/-- A session record, `{ namespace, history }` (server.js lines 96-99).
The field `ns` stands for the `namespace` property of the source, which is
a reserved word in Lean. -/
structure Session where
  ns : String
  history : List Turn
deriving DecidableEq, Repr

/-- The in-memory session registry, `const sessionStore = new Map()`
(server.js line 51), as an association list. -/
abbrev SessionStore := List (String × Session)

/-- `Map.prototype.get` on the session store. -/
def SessionStore.get (st : SessionStore) (k : String) : Option Session :=
  match st with
  | [] => none
  | (k2, v) :: rest => if k2 = k then some v else SessionStore.get rest k

/-- `Map.prototype.set` on the session store: replaces the binding of an
existing key, otherwise appends a new one. -/
def SessionStore.set (st : SessionStore) (k : String) (v : Session) : SessionStore :=
  match st with
  | [] => [(k, v)]
  | (k2, v2) :: rest =>
    if k2 = k then (k2, v) :: rest else (k2, v2) :: SessionStore.set rest k v

/-- One result of `vectorStore.similaritySearchVectorWithScore`: a
`[document, score]` pair (server.js lines 153-156). Only the text of the
document matters to the pipeline. -/
structure RetrievalResult where
  pageContent : String
  score : ℚ
deriving DecidableEq, Repr

/-- One invocation of an external collaborator, in the order the awaits
occur in the source. -/
inductive CollabEvent where
  | rewriteCall (contents : List Turn)
  | embedCall (text : String)
  | searchCall (ns : String) (queryVector : List ℚ) (topK : Nat)
  | genCall (prompt : String)
deriving DecidableEq, Repr

/-- The external collaborators of the `/ask` pipeline: the rewriting model
call of `transformQuery` (server.js line 218), `embeddings.embedQuery`
(line 143), `similaritySearchVectorWithScore` on the namespaced store
(lines 147-156; a failure while opening the existing index is folded into
a search failure, as both reject the same awaited chain), and the
generation model call of `generateAnswer` (line 241). -/
structure Collab where
  rewriteLLM : List Turn → Except String String
  embedQuery : String → Except String (List ℚ)
  similaritySearch : String → List ℚ → Nat → Except String (List RetrievalResult)
  genLLM : String → Except String String

/-- The canonical refusal string (server.js lines 186, 248, 254). -/
def canonicalRefusal : String := "I couldn\x27t find the answer in the document."

/-- The fixed phrase set of the post-hoc refusal detector
(server.js lines 246-247). -/
def inabilityPhrases : List String := ["couldn\x27t find", "don\x27t know"]

/-- Whether the first character list starts the second. -/
def charsStartWith : List Char → List Char → Bool
  | [], _ => true
  | _ :: _, [] => false
  | a :: as, b :: bs => a == b && charsStartWith as bs

/-- Whether the first character list occurs contiguously in the second. -/
def charsContain (needle : List Char) : List Char → Bool
  | [] => charsStartWith needle []
  | b :: bs => charsStartWith needle (b :: bs) || charsContain needle bs

/-- JavaScript `hay.includes(needle)`: substring containment. -/
def strIncludes (hay needle : String) : Bool :=
  charsContain needle.toList hay.toList

/-- JavaScript `s.toLowerCase()`, character by character (the phrases the
detector matches are ASCII, where the two agree). -/
def strToLower (s : String) : String :=
  String.mk (s.data.map Char.toLower)

/-- JavaScript `s.trim()`: the string without leading and trailing
whitespace. -/
def strTrim (s : String) : String :=
  String.mk (((s.data.dropWhile Char.isWhitespace).reverse.dropWhile
    Char.isWhitespace).reverse)

/-- JavaScript truthiness of an optional string body field: absent fields
and the empty string are falsy (server.js line 119). -/
def jsFalsyStr : Option String → Bool
  | none => true
  | some s => decide (s = "")

/-- `transformQuery(question, history)` (server.js lines 202-225),
paired with the trace of collaborator calls it makes. With empty history
the question is returned as is; otherwise the rewriting model is called
on the history extended by a user turn for the question, and on failure
the original question is returned. -/
def transformQuery (c : Collab) (question : String) (history : List Turn) :
    String × List CollabEvent :=
  if history.length = 0 then
    (question, [])
  else
    let tempHistory := history ++ [Turn.mk "user" question]
    match c.rewriteLLM tempHistory with
    | Except.ok t => (t, [CollabEvent.rewriteCall tempHistory])
    | Except.error _ => (question, [CollabEvent.rewriteCall tempHistory])

/-- The prompt built by `generateAnswer` (server.js line 231). -/
def answerPrompt (question context : String) : String :=
  "Context: " ++ context ++ "\n\nQuestion: " ++ question ++
    "\n\nAnswer the question using ONLY the context above. If the answer cannot be found in the context, say \"I couldn\x27t find the answer in the document.\""

/-- `generateAnswer(question, context)` (server.js lines 228-256), paired
with its collaborator-call trace. The generation model is called on the
prompt; if it answers, the text is normalized to the canonical refusal
when its lower-cased form contains one of the inability phrases; on
failure the canonical refusal is returned. -/
def generateAnswer (c : Collab) (question context : String) :
    String × List CollabEvent :=
  let prompt := answerPrompt question context
  match c.genLLM prompt with
  | Except.ok answer =>
    if strIncludes (strToLower answer) "couldn\x27t find" ||
        strIncludes (strToLower answer) "don\x27t know" then
      (canonicalRefusal, [CollabEvent.genCall prompt])
    else
      (answer, [CollabEvent.genCall prompt])
  | Except.error _ => (canonicalRefusal, [CollabEvent.genCall prompt])

/-- `const similarityThreshold = 0.5` (server.js line 161). -/
def similarityThreshold : ℚ := mkRat 1 2

/-- The relevance filter (server.js lines 162-164): keep the results whose
score is at least the threshold. -/
def relevantResults (results : List RetrievalResult) : List RetrievalResult :=
  results.filter (fun r => decide (similarityThreshold ≤ r.score))

/-- The separator joining surviving chunk texts (server.js line 173). -/
def contextSeparator : String := "\n\n---\n\n"

/-- Context assembly (server.js lines 168-179): when some results survive
the relevance filter, their texts, skipping those whose trimmed form is
empty, joined by the separator; otherwise the empty context. -/
def buildContext (results : List RetrievalResult) : String :=
  let rel := relevantResults results
  if rel.length > 0 then
    String.intercalate contextSeparator
      ((rel.map RetrievalResult.pageContent).filter
        (fun text => decide (0 < (strTrim text).length)))
  else
    ""

/-- The HTTP outcome of a `/ask` request. -/
inductive AskResponse where
  | badRequest (error : String)
  | ok (answer : String)
  | serverError (error : String)
deriving DecidableEq, Repr

/-- Whether a `/ask` response is a 200 answer. -/
def AskResponse.isOk : AskResponse → Bool
  | AskResponse.ok _ => true
  | _ => false

/-- The full observable outcome of one `/ask` request: the response, the
session registry afterwards, and the collaborator calls made. -/
structure AskOutcome where
  response : AskResponse
  store : SessionStore
  events : List CollabEvent
deriving Repr

/-- The `/ask` handler (server.js lines 116-199). Validation rejects a
missing question or session id and an unknown session with 400; then the
query is rewritten, embedded and searched (a rejection of either of those
awaits bubbles to the catch, a 500, leaving the registry untouched); the
context is assembled, the answer generated when the context is non-empty
and the canonical refusal returned otherwise; finally a user turn with
the original question and a model turn with the answer are appended to
the session history. -/
def ask (c : Collab) (store : SessionStore)
    (bodyQuestion bodySessionId : Option String) : AskOutcome :=
  if jsFalsyStr bodyQuestion || jsFalsyStr bodySessionId then
    { response := AskResponse.badRequest "Missing question or session ID",
      store := store, events := [] }
  else
    let question := bodyQuestion.getD ""
    let sessionId := bodySessionId.getD ""
    match SessionStore.get store sessionId with
    | none =>
      { response := AskResponse.badRequest "Invalid session ID",
        store := store, events := [] }
    | some session =>
      let tq := (transformQuery c question session.history).1
      let rewriteEvents := (transformQuery c question session.history).2
      match c.embedQuery tq with
      | Except.error e =>
        { response := AskResponse.serverError ("Failed to process question: " ++ e),
          store := store,
          events := rewriteEvents ++ [CollabEvent.embedCall tq] }
      | Except.ok queryVector =>
        match c.similaritySearch session.ns queryVector 10 with
        | Except.error e =>
          { response := AskResponse.serverError ("Failed to process question: " ++ e),
            store := store,
            events := rewriteEvents ++
              [CollabEvent.embedCall tq,
               CollabEvent.searchCall session.ns queryVector 10] }
        | Except.ok results =>
          let context := buildContext results
          let gen :=
            if context ≠ "" then generateAnswer c question context
            else (canonicalRefusal, [])
          let answer := gen.1
          let updated : Session :=
            { session with history := session.history ++
                [Turn.mk "user" question, Turn.mk "model" answer] }
          { response := AskResponse.ok answer,
            store := SessionStore.set store sessionId updated,
            events := rewriteEvents ++
              [CollabEvent.embedCall tq,
               CollabEvent.searchCall session.ns queryVector 10] ++ gen.2 }

/-- The external collaborators of the `/upload` pipeline: the PDF loader
(server.js line 68), the text splitter (line 76), the embed-and-store call
`PineconeStore.fromDocuments` (lines 87-91) and the index statistics call
(line 102). Pages and chunks are modelled by their text. -/
structure IngestCollab where
  pdfLoad : String → Except String (List String)
  splitDocuments : List String → Except String (List String)
  fromDocuments : List String → String → Except String Unit
  describeIndexStats : Except String String

/-- The HTTP outcome of a `/upload` request. -/
inductive UploadResponse where
  | badRequest (error : String)
  | ok (message sessionId : String)
  | serverError (error : String)
deriving DecidableEq, Repr

/-- The `/upload` handler (server.js lines 54-113). A missing file is a
400; the PDF is loaded, split, embedded and stored under a fresh
namespace derived from `Date.now()`; on success of those the session is
registered with empty history, then the index statistics are fetched and
the 200 response sent. A rejection of any await is caught and returned as
a 500. Note the order of the source: the registry is written at line 96,
before the statistics await at line 102. -/
def upload (c : IngestCollab) (store : SessionStore)
    (file : Option String) (now : Nat) : UploadResponse × SessionStore :=
  match file with
  | none => (UploadResponse.badRequest "No file uploaded", store)
  | some pdfPath =>
    let sessionId := toString now
    let ns := "pdf-" ++ sessionId
    match c.pdfLoad pdfPath with
    | Except.error e =>
      (UploadResponse.serverError ("Failed to process PDF: " ++ e), store)
    | Except.ok rawDocs =>
      match c.splitDocuments rawDocs with
      | Except.error e =>
        (UploadResponse.serverError ("Failed to process PDF: " ++ e), store)
      | Except.ok chunkedDocs =>
        match c.fromDocuments chunkedDocs ns with
        | Except.error e =>
          (UploadResponse.serverError ("Failed to process PDF: " ++ e), store)
        | Except.ok _ =>
          let store1 := SessionStore.set store sessionId (Session.mk ns [])
          match c.describeIndexStats with
          | Except.error e =>
            (UploadResponse.serverError ("Failed to process PDF: " ++ e), store1)
          | Except.ok _ =>
            (UploadResponse.ok "PDF processed successfully" sessionId, store1)

/-- A sequence of `/ask` requests against one session: the responses in
order and the final registry. -/
def askRun (c : Collab) (store : SessionStore) (sessionId : String) :
    List String → List AskResponse × SessionStore
  | [] => ([], store)
  | q :: qs =>
    let outcome := ask c store (some q) (some sessionId)
    let rest := askRun c outcome.store sessionId qs
    (outcome.response :: rest.1, rest.2)

/-- The history contributed by a list of answered question-answer pairs:
a user turn with the question then a model turn with the answer, for each
pair in order. -/
def turnsFor : List (String × String) → List Turn
  | [] => []
  | qa :: rest => Turn.mk "user" qa.1 :: Turn.mk "model" qa.2 :: turnsFor rest

/-- Strict user/model alternation of a history. -/
def alternatingUserModel : List Turn → Bool
  | [] => true
  | u :: m :: rest =>
    (u.role == "user" && m.role == "model") && alternatingUserModel rest
  | _ :: [] => false

/-- The relevance filter and context assembly as the specification words
them: drop every result scoring strictly below the threshold, keep the
remaining chunk texts in order, skip those whose trimmed text is empty,
and join with the separator. Stated only to be compared with
`buildContext`, which is translated from the source. -/
def specFilterContext (results : List RetrievalResult) : String :=
  String.intercalate contextSeparator
    (((results.filter (fun r => decide (¬ r.score < similarityThreshold))).map
        RetrievalResult.pageContent).filter
      (fun t => decide (strTrim t ≠ "")))

/-! Concrete collaborator families and stores used to instantiate the
theorems below on closed inputs. -/

/-- Collaborators whose retrieval succeeds with one low-scoring result. -/
def c1Collab : Collab :=
  { rewriteLLM := fun _ => Except.ok "rewritten",
    embedQuery := fun _ => Except.ok [1],
    similaritySearch := fun _ _ _ => Except.ok [RetrievalResult.mk "some text" 0],
    genLLM := fun _ => Except.ok "an answer" }

/-- A registry with one fresh session. -/
def c1Store : SessionStore := [("1", Session.mk "pdf-1" [])]

/-- Collaborators whose embedding call fails. -/
def c2Collab : Collab :=
  { rewriteLLM := fun _ => Except.ok "rewritten",
    embedQuery := fun _ => Except.error "quota exceeded",
    similaritySearch := fun _ _ _ => Except.ok [],
    genLLM := fun _ => Except.ok "answer" }

/-- A registry with one fresh session. -/
def c2Store : SessionStore := [("1", Session.mk "pdf-1" [])]

/-- Collaborators for which rewriting and generation fail but retrieval
succeeds with one relevant chunk. -/
def c2wCollab : Collab :=
  { rewriteLLM := fun _ => Except.error "rewrite down",
    embedQuery := fun _ => Except.ok [1],
    similaritySearch := fun _ _ _ => Except.ok [RetrievalResult.mk "chunk" 1],
    genLLM := fun _ => Except.error "generation down" }

/-- A registry with one fresh session. -/
def c2wStore : SessionStore := [("1", Session.mk "pdf-1" [])]

/-- Ingestion collaborators for which everything succeeds except the
index statistics call. -/
def c3Ingest : IngestCollab :=
  { pdfLoad := fun _ => Except.ok ["page one text"],
    splitDocuments := fun _ => Except.ok ["chunk one"],
    fromDocuments := fun _ _ => Except.ok (),
    describeIndexStats := Except.error "stats unavailable" }

/-- Collaborators whose retrieval succeeds with no results. -/
def c4wCollab : Collab :=
  { rewriteLLM := fun _ => Except.ok "rewritten",
    embedQuery := fun _ => Except.ok [1],
    similaritySearch := fun _ _ _ => Except.ok [],
    genLLM := fun _ => Except.ok "an answer" }

/-- A registry with one fresh session. -/
def c4wStore : SessionStore := [("1", Session.mk "pdf-1" [])]

/-- Two questions submitted in order. -/
def c4wQuestions : List String := ["first question", "second question"]

/-- Collaborators whose rewriting call fails. -/
def c6Collab : Collab :=
  { rewriteLLM := fun _ => Except.error "llm down",
    embedQuery := fun _ => Except.ok [1],
    similaritySearch := fun _ _ _ => Except.ok [],
    genLLM := fun _ => Except.ok "an answer" }

/-- A non-empty conversation history. -/
def c6History : List Turn :=
  [Turn.mk "user" "earlier question", Turn.mk "model" "earlier answer"]

/-- A registry with one session carrying prior turns. -/
def c6Store : SessionStore := [("1", Session.mk "pdf-1" c6History)]

/-- Collaborators whose rewriting call succeeds with a distinct standalone
question. -/
def c8Collab : Collab :=
  { rewriteLLM := fun _ => Except.ok "standalone rewritten question",
    embedQuery := fun _ => Except.ok [1],
    similaritySearch := fun _ _ _ => Except.ok [],
    genLLM := fun _ => Except.ok "some answer" }

/-- A registry with one fresh session. -/
def c8Store : SessionStore := [("7", Session.mk "pdf-7" [])]

/-- The question asked twice in a row. -/
def c8Question : String := "What is the main topic?"

/-- The outcome of the first ask of the repeated question. -/
def c8FirstAsk : AskOutcome := ask c8Collab c8Store (some c8Question) (some "7")

/-- The outcome of asking the identical question again. -/
def c8SecondAsk : AskOutcome :=
  ask c8Collab c8FirstAsk.store (some c8Question) (some "7")

/-- Collaborators with successful retrieval over an empty result list. -/
def c8wCollab : Collab :=
  { rewriteLLM := fun _ => Except.ok "rewritten",
    embedQuery := fun _ => Except.ok [1],
    similaritySearch := fun _ _ _ => Except.ok [],
    genLLM := fun _ => Except.ok "an answer" }

/-- A registry with one fresh session. -/
def c8wStore : SessionStore := [("9", Session.mk "pdf-9" [])]

/-- Collaborators whose generation call returns an inability phrase in
mixed case. -/
def c9Collab : Collab :=
  { rewriteLLM := fun _ => Except.ok "rewritten",
    embedQuery := fun _ => Except.ok [1],
    similaritySearch := fun _ _ _ => Except.ok [],
    genLLM := fun _ => Except.ok "Sorry, I really DON\x27T KNOW." }

/-- Collaborators whose embedding call fails. -/
def c10Collab : Collab :=
  { rewriteLLM := fun _ => Except.ok "rewritten",
    embedQuery := fun _ => Except.error "embed down",
    similaritySearch := fun _ _ _ => Except.ok [],
    genLLM := fun _ => Except.ok "an answer" }

/-- A registry with one fresh session. -/
def c10Store : SessionStore := [("1", Session.mk "pdf-1" [])]

end PdfQa

/-! ## Helper lemmas -/

namespace PdfQa

/-- Looking up a key just written returns the written session. -/
theorem SessionStore.get_set_self (st : SessionStore) (k : String) (v : Session) :
    SessionStore.get (SessionStore.set st k v) k = some v := by
  induction st with
  | nil => simp [SessionStore.set, SessionStore.get]
  | cons kv rest ih =>
    by_cases h : kv.1 = k
    · simp [SessionStore.set, SessionStore.get, h]
    · simp [SessionStore.set, SessionStore.get, h, ih]

/-- The query rewriter never performs a generation call. -/
theorem transformQuery_no_genCall (c : Collab) (q : String) (history : List Turn)
    (p : String) : CollabEvent.genCall p ∉ (transformQuery c q history).2 := by
  unfold transformQuery
  split
  · simp
  · dsimp only
    split <;> simp

/-- The answer generator performs exactly one generation call. -/
theorem generateAnswer_events (c : Collab) (q ctx : String) :
    (generateAnswer c q ctx).2 = [CollabEvent.genCall (answerPrompt q ctx)] := by
  unfold generateAnswer
  dsimp only
  split
  · split <;> rfl
  · rfl

/-- A string has positive length exactly when it is not the empty string. -/
theorem string_length_pos_iff (s : String) : 0 < s.length ↔ s ≠ "" := by
  cases s with
  | mk data =>
    cases data <;> simp [String.length, String.ext_iff]

/-- Evaluation of a validated `/ask` request whose embedding and search
calls succeed. -/
theorem ask_ok_eq (c : Collab) (store : SessionStore) (q sid : String)
    (session : Session) (v : List ℚ) (results : List RetrievalResult)
    (hq : q ≠ "") (hsid : sid ≠ "")
    (hsess : SessionStore.get store sid = some session)
    (hemb : c.embedQuery (transformQuery c q session.history).1 = Except.ok v)
    (hsearch : c.similaritySearch session.ns v 10 = Except.ok results) :
    ask c store (some q) (some sid) =
      { response := AskResponse.ok
          ((if buildContext results ≠ "" then generateAnswer c q (buildContext results)
            else (canonicalRefusal, [])).1),
        store := SessionStore.set store sid
          { session with history := session.history ++
              [Turn.mk "user" q, Turn.mk "model"
                ((if buildContext results ≠ "" then generateAnswer c q (buildContext results)
                  else (canonicalRefusal, [])).1)] },
        events := (transformQuery c q session.history).2 ++
          [CollabEvent.embedCall (transformQuery c q session.history).1,
           CollabEvent.searchCall session.ns v 10] ++
          (if buildContext results ≠ "" then generateAnswer c q (buildContext results)
            else (canonicalRefusal, [])).2 } := by
  simp [ask, jsFalsyStr, hq, hsid, hsess, hemb, hsearch]

/-- Evaluation of a validated `/ask` request whose embedding call fails. -/
theorem ask_embed_error_eq (c : Collab) (store : SessionStore) (q sid : String)
    (session : Session) (e : String)
    (hq : q ≠ "") (hsid : sid ≠ "")
    (hsess : SessionStore.get store sid = some session)
    (hemb : c.embedQuery (transformQuery c q session.history).1 = Except.error e) :
    ask c store (some q) (some sid) =
      { response := AskResponse.serverError ("Failed to process question: " ++ e),
        store := store,
        events := (transformQuery c q session.history).2 ++
          [CollabEvent.embedCall (transformQuery c q session.history).1] } := by
  simp [ask, jsFalsyStr, hq, hsid, hsess, hemb]

/-- Evaluation of a validated `/ask` request whose vector search fails. -/
theorem ask_search_error_eq (c : Collab) (store : SessionStore) (q sid : String)
    (session : Session) (v : List ℚ) (e : String)
    (hq : q ≠ "") (hsid : sid ≠ "")
    (hsess : SessionStore.get store sid = some session)
    (hemb : c.embedQuery (transformQuery c q session.history).1 = Except.ok v)
    (hsearch : c.similaritySearch session.ns v 10 = Except.error e) :
    ask c store (some q) (some sid) =
      { response := AskResponse.serverError ("Failed to process question: " ++ e),
        store := store,
        events := (transformQuery c q session.history).2 ++
          [CollabEvent.embedCall (transformQuery c q session.history).1,
           CollabEvent.searchCall session.ns v 10] } := by
  simp [ask, jsFalsyStr, hq, hsid, hsess, hemb, hsearch]

/-- When every result scores strictly below the threshold, the relevance
filter keeps nothing. -/
theorem relevantResults_eq_nil (results : List RetrievalResult)
    (h : ∀ r ∈ results, r.score < similarityThreshold) :
    relevantResults results = [] := by
  rw [relevantResults, List.filter_eq_nil_iff]
  intro r hr
  simpa using not_le.mpr (h r hr)

/-- The assembled context is empty when every score is below the
threshold or every surviving chunk trims to the empty string. -/
theorem buildContext_empty_of (results : List RetrievalResult)
    (h : (∀ r ∈ results, r.score < similarityThreshold) ∨
      (∀ r ∈ relevantResults results, strTrim r.pageContent = "")) :
    buildContext results = "" := by
  rcases h with h | h
  · simp [buildContext, relevantResults_eq_nil results h]
  · unfold buildContext
    have hfil : ((relevantResults results).map RetrievalResult.pageContent).filter
        (fun text => decide (0 < (strTrim text).length)) = [] := by
      rw [List.filter_eq_nil_iff]
      intro t ht
      obtain ⟨r, hr, rfl⟩ := List.mem_map.mp ht
      simp [h r hr]
    dsimp only
    rw [hfil]
    split
    · rfl
    · rfl

/-- Every `/ask` request either leaves the registry untouched or answers
with a 200. -/
theorem ask_store_or_ok (c : Collab) (store : SessionStore)
    (bq bsid : Option String) :
    (ask c store bq bsid).store = store ∨
      AskResponse.isOk (ask c store bq bsid).response = true := by
  unfold ask
  dsimp only
  split
  · left; rfl
  · split
    · left; rfl
    · split
      · left; rfl
      · split
        · left; rfl
        · right; rfl

/-- A `/ask` request answered with a 200 appends exactly the user turn for
the original question and the model turn for the answer to its session. -/
theorem ask_ok_inv (c : Collab) (store : SessionStore) (q sid a : String)
    (session : Session)
    (hsess : SessionStore.get store sid = some session)
    (ha : (ask c store (some q) (some sid)).response = AskResponse.ok a) :
    (ask c store (some q) (some sid)).store =
      SessionStore.set store sid
        { session with history := session.history ++
            [Turn.mk "user" q, Turn.mk "model" a] } := by
  by_cases hq : q = ""
  · simp [ask, jsFalsyStr, hq] at ha
  by_cases hsid : sid = ""
  · simp [ask, jsFalsyStr, hsid] at ha
  cases hemb : c.embedQuery (transformQuery c q session.history).1 with
  | error e =>
    rw [ask_embed_error_eq c store q sid session e hq hsid hsess hemb] at ha
    cases ha
  | ok v =>
    cases hsearch : c.similaritySearch session.ns v 10 with
    | error e =>
      rw [ask_search_error_eq c store q sid session v e hq hsid hsess hemb hsearch] at ha
      cases ha
    | ok results =>
      rw [ask_ok_eq c store q sid session v results hq hsid hsess hemb hsearch] at ha ⊢
      cases ha
      rfl

/-- Two turns per answered pair. -/
theorem turnsFor_length (qas : List (String × String)) :
    (turnsFor qas).length = 2 * qas.length := by
  induction qas with
  | nil => rfl
  | cons qa rest ih => simp [turnsFor, ih]; ring

/-- The turns of answered pairs alternate user and model roles. -/
theorem turnsFor_alternating (qas : List (String × String)) :
    alternatingUserModel (turnsFor qas) = true := by
  induction qas with
  | nil => rfl
  | cons qa rest ih => simp [turnsFor, alternatingUserModel, ih]

/-- The user turns of answered pairs carry exactly the questions, in
order. -/
theorem turnsFor_user_texts (qas : List (String × String)) :
    ((turnsFor qas).filter (fun t => t.role == "user")).map Turn.text =
      qas.map Prod.fst := by
  induction qas with
  | nil => rfl
  | cons qa rest ih => simp [turnsFor, List.filter, ih]

/-- The history of a session across a run of `/ask` requests, generalized
over the initial history. -/
theorem askRun_general (c : Collab) (sid ns0 : String) (qs : List String) :
    ∀ (store : SessionStore) (h0 : List Turn),
      SessionStore.get store sid = some (Session.mk ns0 h0) →
      (∀ r ∈ (askRun c store sid qs).1, AskResponse.isOk r = true) →
      ∃ answers : List String,
        answers.length = qs.length ∧
        (askRun c store sid qs).1 = answers.map AskResponse.ok ∧
        SessionStore.get (askRun c store sid qs).2 sid =
          some (Session.mk ns0 (h0 ++ turnsFor (qs.zip answers))) := by
  induction qs with
  | nil =>
    intro store h0 hs _
    exact ⟨[], rfl, rfl, by simpa [askRun, turnsFor] using hs⟩
  | cons q qs ih =>
    intro store h0 hs hok
    have hok1 : AskResponse.isOk (ask c store (some q) (some sid)).response = true := by
      have := hok (ask c store (some q) (some sid)).response (by simp [askRun])
      exact this
    obtain ⟨a, ha⟩ : ∃ a, (ask c store (some q) (some sid)).response =
        AskResponse.ok a := by
      cases hr : (ask c store (some q) (some sid)).response with
      | ok x => exact ⟨x, rfl⟩
      | badRequest e => rw [hr] at hok1; cases hok1
      | serverError e => rw [hr] at hok1; cases hok1
    have hstore := ask_ok_inv c store q sid a (Session.mk ns0 h0) hs ha
    have hs2 : SessionStore.get (ask c store (some q) (some sid)).store sid =
        some (Session.mk ns0 (h0 ++ [Turn.mk "user" q, Turn.mk "model" a])) := by
      rw [hstore]
      exact SessionStore.get_set_self store sid _
    have hok2 : ∀ r ∈ (askRun c (ask c store (some q) (some sid)).store sid qs).1,
        AskResponse.isOk r = true := by
      intro r hr
      exact hok r (by simp [askRun, hr])
    obtain ⟨answers, hlen, hresp, hget⟩ :=
      ih (ask c store (some q) (some sid)).store
        (h0 ++ [Turn.mk "user" q, Turn.mk "model" a]) hs2 hok2
    refine ⟨a :: answers, by simp [hlen], ?_, ?_⟩
    · simp [askRun, ha, hresp]
    · have : (askRun c store sid (q :: qs)).2 =
          (askRun c (ask c store (some q) (some sid)).store sid qs).2 := by
        simp [askRun]
      rw [this, hget]
      simp [List.zip_cons_cons, turnsFor, List.append_assoc]
      rfl

end PdfQa

/-! ## The claims -/

namespace PdfQa

/-- Claim C1: for every `/ask` request on a valid session, if every
retrieved similarity score is strictly below the fixed threshold 0.5, or
every surviving chunk trims to the empty string (so the assembled context
is empty), then the returned answer equals the canonical refusal string
and the answer-generation collaborator is never invoked. -/
theorem ask_relevance_gate (c : Collab) (store : SessionStore) (q sid : String)
    (session : Session) (v : List ℚ) (results : List RetrievalResult)
    (hq : q ≠ "") (hsid : sid ≠ "")
    (hsess : SessionStore.get store sid = some session)
    (hemb : c.embedQuery (transformQuery c q session.history).1 = Except.ok v)
    (hsearch : c.similaritySearch session.ns v 10 = Except.ok results)
    (hlow : (∀ r ∈ results, r.score < similarityThreshold) ∨
      (∀ r ∈ relevantResults results, strTrim r.pageContent = "")) :
    (ask c store (some q) (some sid)).response = AskResponse.ok canonicalRefusal ∧
    ∀ p, CollabEvent.genCall p ∉ (ask c store (some q) (some sid)).events := by
  have hctx := buildContext_empty_of results hlow
  rw [ask_ok_eq c store q sid session v results hq hsid hsess hemb hsearch]
  refine ⟨by simp [hctx], ?_⟩
  intro p
  simp only [hctx, ne_eq, not_true_eq_false, if_false]
  simp [transformQuery_no_genCall]

/-- Claim C1, witnessed on a request whose only retrieved result scores
0, below the threshold. -/
theorem ask_relevance_gate_witness :
    (ask c1Collab c1Store (some "What?") (some "1")).response =
      AskResponse.ok canonicalRefusal ∧
    ∀ p, CollabEvent.genCall p ∉
      (ask c1Collab c1Store (some "What?") (some "1")).events :=
  ask_relevance_gate c1Collab c1Store "What?" "1" (Session.mk "pdf-1" []) [1]
    [RetrievalResult.mk "some text" 0] (by decide) (by decide) rfl rfl rfl
    (Or.inl (by decide))

/-- Claim C2, amended: for a validated `/ask` request, a failure of the
rewriting or of the answer-generation collaborator is not surfaced as an
error (the request returns 200, with the canonical refusal when the
generation collaborator fails), but a failure of the embedding or of the
vector-search collaborator surfaces as a 500 server error, so `/ask` can
signal failure beyond the two validation 400 cases. -/
theorem ask_no_error_when_retrieval_ok (c : Collab) (store : SessionStore)
    (q sid : String) (session : Session)
    (hq : q ≠ "") (hsid : sid ≠ "")
    (hsess : SessionStore.get store sid = some session) :
    (∀ v results, c.embedQuery (transformQuery c q session.history).1 = Except.ok v →
      c.similaritySearch session.ns v 10 = Except.ok results →
      (∃ a, (ask c store (some q) (some sid)).response = AskResponse.ok a) ∧
      (∀ e, c.genLLM (answerPrompt q (buildContext results)) = Except.error e →
        (ask c store (some q) (some sid)).response =
          AskResponse.ok canonicalRefusal)) ∧
    (∀ e, c.embedQuery (transformQuery c q session.history).1 = Except.error e →
      (ask c store (some q) (some sid)).response =
        AskResponse.serverError ("Failed to process question: " ++ e)) ∧
    (∀ v e, c.embedQuery (transformQuery c q session.history).1 = Except.ok v →
      c.similaritySearch session.ns v 10 = Except.error e →
      (ask c store (some q) (some sid)).response =
        AskResponse.serverError ("Failed to process question: " ++ e)) := by
  refine ⟨?_, ?_, ?_⟩
  · intro v results hemb hsearch
    rw [ask_ok_eq c store q sid session v results hq hsid hsess hemb hsearch]
    refine ⟨⟨_, rfl⟩, ?_⟩
    intro e he
    by_cases hctx : buildContext results = ""
    · simp [hctx]
    · simp only [hctx, ne_eq, not_false_eq_true, if_true]
      unfold generateAnswer
      dsimp only
      rw [he]
  · intro e hemb
    rw [ask_embed_error_eq c store q sid session e hq hsid hsess hemb]
  · intro v e hemb hsearch
    rw [ask_search_error_eq c store q sid session v e hq hsid hsess hemb hsearch]

/-- Claim C2, counterexample to the frozen wording: on a validated
request against a collaborator family whose embedding call fails, `/ask`
responds with a 500 server error, not with a 200 refusal. -/
theorem ask_embed_failure_is_500 :
    (ask c2Collab c2Store (some "What is this?") (some "1")).response =
      AskResponse.serverError "Failed to process question: quota exceeded" ∧
    ∀ a, (ask c2Collab c2Store (some "What is this?") (some "1")).response ≠
      AskResponse.ok a := by
  constructor
  · decide
  · intro a
    rw [show (ask c2Collab c2Store (some "What is this?") (some "1")).response =
        AskResponse.serverError "Failed to process question: quota exceeded" from by decide]
    simp

/-- Claim C2, amended, witnessed on a session and collaborators for which
rewriting and generation fail while retrieval succeeds. -/
theorem ask_no_error_when_retrieval_ok_witness :
    (∀ v results,
      c2wCollab.embedQuery
        (transformQuery c2wCollab "q" (Session.mk "pdf-1" []).history).1 =
          Except.ok v →
      c2wCollab.similaritySearch (Session.mk "pdf-1" []).ns v 10 =
          Except.ok results →
      (∃ a, (ask c2wCollab c2wStore (some "q") (some "1")).response =
        AskResponse.ok a) ∧
      (∀ e, c2wCollab.genLLM (answerPrompt "q" (buildContext results)) =
          Except.error e →
        (ask c2wCollab c2wStore (some "q") (some "1")).response =
          AskResponse.ok canonicalRefusal)) ∧
    (∀ e, c2wCollab.embedQuery
        (transformQuery c2wCollab "q" (Session.mk "pdf-1" []).history).1 =
          Except.error e →
      (ask c2wCollab c2wStore (some "q") (some "1")).response =
        AskResponse.serverError ("Failed to process question: " ++ e)) ∧
    (∀ v e, c2wCollab.embedQuery
        (transformQuery c2wCollab "q" (Session.mk "pdf-1" []).history).1 =
          Except.ok v →
      c2wCollab.similaritySearch (Session.mk "pdf-1" []).ns v 10 =
          Except.error e →
      (ask c2wCollab c2wStore (some "q") (some "1")).response =
        AskResponse.serverError ("Failed to process question: " ++ e)) :=
  ask_no_error_when_retrieval_ok c2wCollab c2wStore "q" "1"
    (Session.mk "pdf-1" []) (by decide) (by decide) rfl

/-- Claim C3, amended: if parsing, splitting, or embedding-and-storing
fails, the `/upload` request fails with a 500 and the session registry is
exactly as before the request; but if those steps succeed and the
subsequent index-statistics call fails before the 200 response, the
request still fails with a 500 while the fully ingested session remains
registered. -/
theorem upload_failure_registry (c : IngestCollab) (store : SessionStore)
    (f : String) (now : Nat) :
    (∀ e, c.pdfLoad f = Except.error e →
      upload c store (some f) now =
        (UploadResponse.serverError ("Failed to process PDF: " ++ e), store)) ∧
    (∀ pages e, c.pdfLoad f = Except.ok pages →
      c.splitDocuments pages = Except.error e →
      upload c store (some f) now =
        (UploadResponse.serverError ("Failed to process PDF: " ++ e), store)) ∧
    (∀ pages chunks e, c.pdfLoad f = Except.ok pages →
      c.splitDocuments pages = Except.ok chunks →
      c.fromDocuments chunks ("pdf-" ++ toString now) = Except.error e →
      upload c store (some f) now =
        (UploadResponse.serverError ("Failed to process PDF: " ++ e), store)) ∧
    (∀ pages chunks e, c.pdfLoad f = Except.ok pages →
      c.splitDocuments pages = Except.ok chunks →
      c.fromDocuments chunks ("pdf-" ++ toString now) = Except.ok () →
      c.describeIndexStats = Except.error e →
      upload c store (some f) now =
        (UploadResponse.serverError ("Failed to process PDF: " ++ e),
         SessionStore.set store (toString now)
           (Session.mk ("pdf-" ++ toString now) []))) := by
  refine ⟨?_, ?_, ?_, ?_⟩
  · intro e h1
    simp [upload, h1]
  · intro pages e h1 h2
    simp [upload, h1, h2]
  · intro pages chunks e h1 h2 h3
    simp [upload, h1, h2, h3]
  · intro pages chunks e h1 h2 h3 h4
    simp [upload, h1, h2, h3, h4]

/-- Claim C3, counterexample to the frozen wording: when only the
post-registration statistics call fails, the request fails with a 500 but
the registry is not as it was before the request: the new session is
registered. -/
theorem upload_stats_failure_leaves_session :
    (upload c3Ingest [] (some "doc.pdf") 42).1 =
      UploadResponse.serverError "Failed to process PDF: stats unavailable" ∧
    (upload c3Ingest [] (some "doc.pdf") 42).2 =
      [("42", Session.mk "pdf-42" [])] ∧
    (upload c3Ingest [] (some "doc.pdf") 42).2 ≠ ([] : SessionStore) := by
  refine ⟨by decide, by decide, by decide⟩

/-- Claim C4: starting from a session with empty history, a run of
answered `/ask` questions leaves the history equal to the user/model
turns of the question-answer pairs in submission order: 2N turns for N
questions, strictly alternating, the user turns carrying exactly the
original questions. -/
theorem askRun_history (c : Collab) (store : SessionStore) (sid ns0 : String)
    (qs : List String)
    (hsess : SessionStore.get store sid = some (Session.mk ns0 []))
    (hok : ∀ r ∈ (askRun c store sid qs).1, AskResponse.isOk r = true) :
    ∃ answers : List String,
      answers.length = qs.length ∧
      (askRun c store sid qs).1 = answers.map AskResponse.ok ∧
      SessionStore.get (askRun c store sid qs).2 sid =
        some (Session.mk ns0 (turnsFor (qs.zip answers))) ∧
      (turnsFor (qs.zip answers)).length = 2 * qs.length ∧
      alternatingUserModel (turnsFor (qs.zip answers)) = true ∧
      ((turnsFor (qs.zip answers)).filter (fun t => t.role == "user")).map
        Turn.text = qs := by
  obtain ⟨answers, hlen, hresp, hget⟩ := askRun_general c sid ns0 qs store [] hsess hok
  refine ⟨answers, hlen, hresp, by simpa using hget, ?_, turnsFor_alternating _, ?_⟩
  · rw [turnsFor_length]
    simp [List.length_zip, hlen]
  · rw [turnsFor_user_texts]
    exact List.map_fst_zip qs answers (le_of_eq hlen.symm)

/-- Claim C4, witnessed on a run of two answered questions in one fresh
session. -/
theorem askRun_history_witness :
    ∃ answers : List String,
      answers.length = c4wQuestions.length ∧
      (askRun c4wCollab c4wStore "1" c4wQuestions).1 =
        answers.map AskResponse.ok ∧
      SessionStore.get (askRun c4wCollab c4wStore "1" c4wQuestions).2 "1" =
        some (Session.mk "pdf-1" (turnsFor (c4wQuestions.zip answers))) ∧
      (turnsFor (c4wQuestions.zip answers)).length = 2 * c4wQuestions.length ∧
      alternatingUserModel (turnsFor (c4wQuestions.zip answers)) = true ∧
      ((turnsFor (c4wQuestions.zip answers)).filter
        (fun t => t.role == "user")).map Turn.text = c4wQuestions :=
  askRun_history c4wCollab c4wStore "1" "pdf-1" c4wQuestions rfl (by decide)

/-- Claim C5: with empty session history, the query rewriter returns the
question unchanged and makes no collaborator call. -/
theorem transformQuery_empty_history (c : Collab) (question : String) :
    transformQuery c question [] = (question, []) := rfl

/-- Claim C6: on a validated `/ask` request with non-empty history whose
rewriting collaborator call fails, the rewriter returns the original
question, the retrieval stage receives that original question, and the
request returns a 200. -/
theorem ask_rewrite_failure (c : Collab) (store : SessionStore) (q sid : String)
    (session : Session) (e : String) (v : List ℚ)
    (results : List RetrievalResult)
    (hq : q ≠ "") (hsid : sid ≠ "")
    (hsess : SessionStore.get store sid = some session)
    (hne : session.history ≠ [])
    (hrw : c.rewriteLLM (session.history ++ [Turn.mk "user" q]) = Except.error e)
    (hemb : c.embedQuery q = Except.ok v)
    (hsearch : c.similaritySearch session.ns v 10 = Except.ok results) :
    (transformQuery c q session.history).1 = q ∧
    CollabEvent.embedCall q ∈ (ask c store (some q) (some sid)).events ∧
    ∃ a, (ask c store (some q) (some sid)).response = AskResponse.ok a := by
  have htq : transformQuery c q session.history =
      (q, [CollabEvent.rewriteCall (session.history ++ [Turn.mk "user" q])]) := by
    unfold transformQuery
    rw [if_neg (by simpa using hne)]
    dsimp only
    rw [hrw]
  have hemb2 : c.embedQuery (transformQuery c q session.history).1 = Except.ok v := by
    rw [htq]; exact hemb
  rw [ask_ok_eq c store q sid session v results hq hsid hsess hemb2 hsearch]
  refine ⟨by rw [htq], ?_, ⟨_, rfl⟩⟩
  rw [htq]
  simp

/-- Claim C6, witnessed on a session with two prior turns and a failing
rewriting collaborator. -/
theorem ask_rewrite_failure_witness :
    (transformQuery c6Collab "And then?" (Session.mk "pdf-1" c6History).history).1 =
      "And then?" ∧
    CollabEvent.embedCall "And then?" ∈
      (ask c6Collab c6Store (some "And then?") (some "1")).events ∧
    ∃ a, (ask c6Collab c6Store (some "And then?") (some "1")).response =
      AskResponse.ok a :=
  ask_rewrite_failure c6Collab c6Store "And then?" "1"
    (Session.mk "pdf-1" c6History) "llm down" [1] [] (by decide) (by decide)
    rfl (by decide) rfl rfl rfl

/-- Claim C7: the relevance filter keeps exactly the results whose score
is not strictly below the 0.5 threshold (a score of exactly 0.5
survives), keeps them as an order-preserving sublist of the retrieved
order, and the context equals the specification reading: surviving chunk
texts, skipping those whose trimmed text is empty, joined with the
designated separator. -/
theorem relevanceFilter_spec (results : List RetrievalResult) :
    buildContext results = specFilterContext results ∧
    (∀ r, r ∈ relevantResults results ↔
      r ∈ results ∧ ¬ r.score < similarityThreshold) ∧
    List.Sublist (relevantResults results) results := by
  have hpred : ∀ r : RetrievalResult,
      decide (similarityThreshold ≤ r.score) = decide (¬ r.score < similarityThreshold) := by
    intro r; simp [not_lt]
  have hfil : results.filter (fun r => decide (¬ r.score < similarityThreshold)) =
      relevantResults results := by
    rw [relevantResults]
    exact (List.filter_congr (fun r _ => (hpred r).symm))
  have htr : ∀ t : String, decide (0 < (strTrim t).length) = decide (strTrim t ≠ "") := by
    intro t; simp [string_length_pos_iff]
  refine ⟨?_, ?_, ?_⟩
  · unfold buildContext specFilterContext
    rw [hfil]
    dsimp only
    split
    · congr 1
      exact List.filter_congr (fun t _ => htr t)
    · rename_i hlen
      have : relevantResults results = [] := by
        cases hrel : relevantResults results with
        | nil => rfl
        | cons a as => rw [hrel] at hlen; simp at hlen
      rw [this]
      rfl
  · intro r
    simp [relevantResults, List.mem_filter]
  · exact List.filter_sublist results

/-- Claim C8, counterexample to the frozen wording: asking the identical
question twice in one fresh session, both asks answered, the second ask
does invoke the rewriting collaborator and the retrieval path receives
the rewritten question, not the unchanged one. -/
theorem askTwice_second_is_rewritten :
    AskResponse.isOk c8FirstAsk.response = true ∧
    AskResponse.isOk c8SecondAsk.response = true ∧
    CollabEvent.embedCall "standalone rewritten question" ∈ c8SecondAsk.events ∧
    CollabEvent.embedCall c8Question ∉ c8SecondAsk.events ∧
    CollabEvent.rewriteCall
        [Turn.mk "user" c8Question, Turn.mk "model" canonicalRefusal,
         Turn.mk "user" c8Question] ∈ c8SecondAsk.events := by
  refine ⟨by decide, by decide, by decide, by decide, by decide⟩

/-- Claim C8, amended: only the first ask in a fresh session performs no
rewriting: the retrieval path receives the unchanged question and no
rewriting call occurs, but the answered ask leaves the session history
non-empty, so an identical second ask goes through the rewriting
collaborator. -/
theorem ask_fresh_first_unrewritten (c : Collab) (store : SessionStore)
    (q sid ns0 : String) (v : List ℚ) (results : List RetrievalResult)
    (hq : q ≠ "") (hsid : sid ≠ "")
    (hsess : SessionStore.get store sid = some (Session.mk ns0 []))
    (hemb : c.embedQuery q = Except.ok v)
    (hsearch : c.similaritySearch ns0 v 10 = Except.ok results) :
    CollabEvent.embedCall q ∈ (ask c store (some q) (some sid)).events ∧
    (∀ contents, CollabEvent.rewriteCall contents ∉
      (ask c store (some q) (some sid)).events) ∧
    (∃ s2, SessionStore.get (ask c store (some q) (some sid)).store sid =
      some s2 ∧ s2.history ≠ []) := by
  have hemb2 : c.embedQuery (transformQuery c q (Session.mk ns0 []).history).1 =
      Except.ok v := hemb
  rw [ask_ok_eq c store q sid (Session.mk ns0 []) v results hq hsid hsess hemb2
    hsearch]
  refine ⟨?_, ?_, ?_⟩
  · simp [transformQuery]
  · intro contents
    simp only [transformQuery]
    by_cases hctx : buildContext results = ""
    · simp [hctx]
    · simp [hctx, generateAnswer_events]
  · refine ⟨_, SessionStore.get_set_self store sid _, ?_⟩
    simp

/-- Claim C8, amended, witnessed on a fresh session. -/
theorem ask_fresh_first_unrewritten_witness :
    CollabEvent.embedCall "A question" ∈
      (ask c8wCollab c8wStore (some "A question") (some "9")).events ∧
    (∀ contents, CollabEvent.rewriteCall contents ∉
      (ask c8wCollab c8wStore (some "A question") (some "9")).events) ∧
    (∃ s2, SessionStore.get
        (ask c8wCollab c8wStore (some "A question") (some "9")).store "9" =
      some s2 ∧ s2.history ≠ []) :=
  ask_fresh_first_unrewritten c8wCollab c8wStore "A question" "9" "pdf-9" [1] []
    (by decide) (by decide) rfl rfl rfl

/-- Claim C9: when the generation collaborator returns a text, the answer
generator returns the canonical refusal exactly when the lower-cased text
contains one of the fixed inability phrases (case-insensitive substring
match), and otherwise returns the text unchanged. -/
theorem generateAnswer_normalizes (c : Collab) (question context t : String)
    (h : c.genLLM (answerPrompt question context) = Except.ok t) :
    (generateAnswer c question context).1 =
      if inabilityPhrases.any
          (fun p => strIncludes (strToLower t) (strToLower p)) then
        canonicalRefusal
      else t := by
  have h1 : strToLower "couldn\x27t find" = "couldn\x27t find" := by decide
  have h2 : strToLower "don\x27t know" = "don\x27t know" := by decide
  unfold generateAnswer
  dsimp only
  rw [h]
  simp only [inabilityPhrases, List.any_cons, List.any_nil, Bool.or_false, h1, h2]
  split <;> rfl

/-- Claim C9, witnessed on a mixed-case inability answer. -/
theorem generateAnswer_normalizes_witness :
    (generateAnswer c9Collab "q" "ctx").1 =
      if inabilityPhrases.any (fun p =>
          strIncludes (strToLower "Sorry, I really DON\x27T KNOW.")
            (strToLower p)) then
        canonicalRefusal
      else "Sorry, I really DON\x27T KNOW." :=
  generateAnswer_normalizes c9Collab "q" "ctx" "Sorry, I really DON\x27T KNOW."
    rfl

/-- Claim C10: a `/ask` request that fails with a 500 leaves the session
registry exactly as it was before the request: history turns are appended
only once the final answer exists. -/
theorem ask_error_frame (c : Collab) (store : SessionStore)
    (bq bsid : Option String) (e : String)
    (h : (ask c store bq bsid).response = AskResponse.serverError e) :
    (ask c store bq bsid).store = store := by
  rcases ask_store_or_ok c store bq bsid with h2 | h2
  · exact h2
  · rw [h] at h2
    simp [AskResponse.isOk] at h2

/-- Claim C10, witnessed on a request whose embedding call fails. -/
theorem ask_error_frame_witness :
    (ask c10Collab c10Store (some "q") (some "1")).store = c10Store :=
  ask_error_frame c10Collab c10Store (some "q") (some "1")
    "Failed to process question: embed down" (by decide)

end PdfQa
